import Mathlib

/-!
Verification of the moderation-bot scheduler and infraction logic.

Shallow embedding of:
- the durable delayed-action scheduler ("queue manager") — modelled from the
  spec (sections 4.1 and 4.3), since the scheduler implementation itself is
  not among the provided source files, only its callers;
- the infraction state machine `create` / `manualResolve` — modelled from the
  spec (section 4.4), since `InfractionManager` is likewise absent;
- `TempRoleCommand.execute` (src/src/commands/automation/TempRoleCommand.ts);
- `BanCommand.execute` and `GuildBanRemoveEvent.execute`
  (src/src/commands/moderation/BanCommand.ts);
- `LoggerService.send` (src/src/services/LoggerService.ts).

Timestamps are naturals (milliseconds); identifiers are strings, as in the
source (Discord snowflakes are strings there).
-/

/-- A persisted scheduled entry (spec section 3, `ScheduledEntry`; the source
calls these `QueueEntry`, with `name` for `taskName`, `userId` for
`subjectId`, `willRunAt` for `runAt`). -/
structure ScheduledEntry where
  id : Nat
  taskName : String
  guildId : String
  subjectId : String
  args : List String
  createdAt : Nat
  runAt : Nat
deriving DecidableEq, Repr

/-- The `(guildId, subjectId, taskName)` key of an entry (spec section 3,
relationship invariant). -/
def entryKey (e : ScheduledEntry) : String × String × String :=
  (e.guildId, e.subjectId, e.taskName)

/-- Whether an entry matches a `(guildId, subjectId, taskName)` key. -/
def keyMatches (gid sid task : String) (e : ScheduledEntry) : Bool :=
  e.guildId == gid && e.subjectId == sid && e.taskName == task

/-- Modelled from the spec: scheduler-core state (spec section 4.3) — the
durable entry store plus the in-memory armed one-shot timers, each timer
carrying its entry and its remaining delay in milliseconds.  The scheduler
implementation is not among the provided source files. -/
structure SchedulerState where
  store : List ScheduledEntry
  timers : List (ScheduledEntry × Nat)
deriving DecidableEq, Repr

/-- Modelled from the spec: `cancel(guildId, subjectId, taskName)` (spec
section 4.3) — disarm the timer if present, remove the entry from the store,
and return whether an entry was found. -/
def cancel (gid sid task : String) (st : SchedulerState) :
    Bool × SchedulerState :=
  (st.store.any (keyMatches gid sid task),
   { store := st.store.filter (fun e => !(keyMatches gid sid task e)),
     timers := st.timers.filter (fun t => !(keyMatches gid sid task t.1)) })

/-- Modelled from the spec: `schedule(entry)` (spec section 4.3) — if a prior
entry exists for the same `(guildId, subjectId, taskName)` key, cancel it
first (disarm its timer, remove it from the store), then persist the new
entry and arm a one-shot timer for `max(0, runAt - now)` (natural-number
subtraction is exactly that clamp). -/
def schedule (now : Nat) (e : ScheduledEntry) (st : SchedulerState) :
    SchedulerState :=
  let st1 := (cancel e.guildId e.subjectId e.taskName st).2
  { store := st1.store ++ [e], timers := st1.timers ++ [(e, e.runAt - now)] }

/-- Modelled from the spec: `findByKey` of the durable entry store (spec
section 4.1). -/
def findByKey (gid sid task : String) (st : SchedulerState) :
    Option ScheduledEntry :=
  st.store.find? (keyMatches gid sid task)

/-- Modelled from the spec: the per-entry startup delay (spec section 4.3
step 2), `delay = max(0, runAt - now)`; natural subtraction clamps at 0. -/
def delayOf (now : Nat) (e : ScheduledEntry) : Nat :=
  e.runAt - now

/-- Modelled from the spec: the startup reconciliation protocol (spec section
4.3) — load every entry from `listAll()`, compute its delay, arm a timer for
each positive delay, and fire every zero-delay entry immediately during the
first pass, in arrival order of `listAll()`.  Returns the resulting scheduler
state and the list of entries fired on the first pass (fired entries are
removed from the store, one-shot semantics). -/
def startupReconcile (now : Nat) (listAll : List ScheduledEntry) :
    SchedulerState × List ScheduledEntry :=
  let armed := listAll.map (fun e => (e, delayOf now e))
  let late := (armed.filter (fun t => t.2 == 0)).map (fun t => t.1)
  let pending := armed.filter (fun t => t.2 != 0)
  ({ store := pending.map (fun t => t.1), timers := pending }, late)

/-- Outcome of an actuator call or a state-machine operation (spec sections
4.4 and 6): success or failure. -/
inductive ActionOutcome where
  | success
  | failure
deriving DecidableEq, Repr

/-- An infraction record (spec section 3, `Infraction`). -/
structure Infraction where
  id : Nat
  guildId : String
  subjectId : String
  moderatorId : String
  reason : Option String
  duration : Option Nat
  createdAt : Nat
  resolved : Bool
deriving DecidableEq, Repr

/-- Modelled from the spec: combined persistent state of the infraction state
machine and the scheduler core (spec sections 4.3 and 4.4) — the infraction
records plus the scheduler state.  `InfractionManager` is not among the
provided source files. -/
structure MachineState where
  infractions : List Infraction
  scheduler : SchedulerState
deriving DecidableEq, Repr

/-- A request to `create` (spec section 4.4): who acts on whom, where, for
how long.  `taskName` names the reversal handler for temporary actions. -/
structure ActionRequest where
  guildId : String
  subjectId : String
  moderatorId : String
  reason : Option String
  duration : Option Nat
  taskName : String
deriving DecidableEq, Repr

/-- Modelled from the spec: `create(actionRequest)` of the infraction state
machine (spec section 4.4).  `actuatorResult` is the outcome of the external
actuator call performed for the immediate platform effect.  On actuator
failure, returns a failure outcome and performs no persistence and no
scheduling.  On success, persists the infraction and, when a duration is
present, registers the reversal entry with the scheduler core.
`InfractionManager.createBan` is not among the provided source files. -/
def create (req : ActionRequest) (actuatorResult : ActionOutcome)
    (now freshId : Nat) (st : MachineState) : ActionOutcome × MachineState :=
  match actuatorResult with
  | .failure => (.failure, st)
  | .success =>
    let inf : Infraction :=
      { id := freshId, guildId := req.guildId, subjectId := req.subjectId,
        moderatorId := req.moderatorId, reason := req.reason,
        duration := req.duration, createdAt := now, resolved := false }
    let st1 : MachineState :=
      { infractions := st.infractions ++ [inf], scheduler := st.scheduler }
    match req.duration with
    | none => (.success, st1)
    | some d =>
      let entry : ScheduledEntry :=
        { id := freshId, taskName := req.taskName, guildId := req.guildId,
          subjectId := req.subjectId, args := [], createdAt := now,
          runAt := now + d }
      (.success,
       { infractions := st1.infractions,
         scheduler := schedule now entry st1.scheduler })

/-- Modelled from the spec: `manualResolve(infraction)` (spec section 4.4) —
cancel the matching scheduler key, perform the reversal actuation, mark the
record `Resolved`.  Idempotent: on an already-resolved infraction it is a
no-op success and the actuator is not invoked.  The middle component of the
result records whether the reversal actuator was invoked.  `task` is the
reversal handler key matching the infraction's scheduled entry. -/
def manualResolve (inf : Infraction) (task : String) (st : MachineState) :
    ActionOutcome × Bool × MachineState :=
  if inf.resolved then
    (.success, false, st)
  else
    let st1 := (cancel inf.guildId inf.subjectId task st.scheduler).2
    (.success, true,
     { infractions :=
         st.infractions.map (fun i => if i.id == inf.id then { i with resolved := true } else i),
       scheduler := st1 })

/-- Reply emitted by `BanCommand.execute`
(src/src/commands/moderation/BanCommand.ts, lines 130-159): either the error
message shown when `createBan` reports `status === "failed"`, or the overview
embed reply on success. -/
inductive BanReply where
  | failedMessage
  | overview
deriving DecidableEq, Repr

/-- `BanCommand.execute` (src/src/commands/moderation/BanCommand.ts, lines
130-159): calls `infractionManager.createBan` with the parsed arguments, and
if the returned status is `"failed"` replies with an error and returns;
otherwise replies with the overview embed.  The `createBan` call itself is
the spec-modelled `create` above. -/
def banCommandExecute (req : ActionRequest) (actuatorResult : ActionOutcome)
    (now freshId : Nat) (st : MachineState) : BanReply × MachineState :=
  match create req actuatorResult now freshId st with
  | (.failure, st1) => (.failedMessage, st1)
  | (.success, st1) => (.overview, st1)

/-- A queue entry as constructed by `TempRoleCommand.execute`
(src/src/commands/automation/TempRoleCommand.ts): the fields of the
`QueueEntry` constructor argument, minus the `client` and `guild` handles
(the guild is kept as its id). -/
structure QueueEntryData where
  args : List String
  createdAt : Nat
  filePath : String
  guildId : String
  name : String
  userId : String
  willRunAt : Nat
deriving DecidableEq, Repr

/-- Validated inputs of `TempRoleCommand.execute`
(src/src/commands/automation/TempRoleCommand.ts): `invokerId` is
`message.member!.user.id` (the command invoker), `memberId` is the validated
target `member` argument, `duration` and `offset` are the validated
`TimeInterval` arguments in milliseconds (non-negative by validation; the
`offset` defaults to 0 when omitted). -/
structure TempRoleIn where
  guildId : String
  invokerId : String
  memberId : String
  roleId : String
  duration : Nat
  offset : Nat
deriving DecidableEq, Repr

/-- Effects of `TempRoleCommand.execute`: the immediate role grant performed
via `member.roles.add` (as a `(memberId, roleId)` pair) when it happens, and
the queue entries passed to `queueManager.add`, in call order. -/
structure TempRoleOut where
  immediateRoleAdd : Option (String × String)
  queued : List QueueEntryData
deriving DecidableEq, Repr

/-- `TempRoleCommand.execute` (src/src/commands/automation/TempRoleCommand.ts,
lines 73-131).  `totalDuration = offset + duration`.  When `offset === 0` the
role is added to the target member directly; otherwise a
`TempRoleAddQueue` entry is queued with `willRunAt = now + offset`.  In both
cases a `TempRoleRemoveQueue` entry is queued with
`willRunAt = now + totalDuration`.  Both entries carry
`args = [message.member!.user.id, role.id]` and
`userId = message.member!.user.id` — the invoker's id, exactly as the source
writes them.  A single clock reading `now` stands for the `new Date()` /
`Date.now()` calls of the same synchronous execution. -/
def tempRoleExecute (now : Nat) (inp : TempRoleIn) : TempRoleOut :=
  let totalDuration := inp.offset + inp.duration
  let addEntry : QueueEntryData :=
    { args := [inp.invokerId, inp.roleId], createdAt := now,
      filePath := "../../queues/TempRoleAddQueue", guildId := inp.guildId,
      name := "TempRoleAddQueue", userId := inp.invokerId,
      willRunAt := now + inp.offset }
  let removeEntry : QueueEntryData :=
    { args := [inp.invokerId, inp.roleId], createdAt := now,
      filePath := "../../queues/TempRoleRemoveQueue", guildId := inp.guildId,
      name := "TempRoleRemoveQueue", userId := inp.invokerId,
      willRunAt := now + totalDuration }
  if inp.offset = 0 then
    { immediateRoleAdd := some (inp.memberId, inp.roleId),
      queued := [removeEntry] }
  else
    { immediateRoleAdd := none, queued := [addEntry, removeEntry] }

/-- The fixed delay, in milliseconds, before `GuildBanRemoveEvent.execute`
re-fetches the audit log (src/src/commands/moderation/BanCommand.ts, the
`setTimeout(..., 3500)` call). -/
def guildBanRemoveDelayMs : Nat := 3500

/-- The first `MemberBanRemove` audit-log entry as seen by
`GuildBanRemoveEvent.execute`: its executor's id when an executor is
attached.  `executorId = none` models `executor` being absent. -/
structure AuditEntryData where
  executorId : Option String
deriving DecidableEq, Repr

/-- The `GuildBan` payload of a `guildBanRemove` event: guild, unbanned user,
and the stored ban reason. -/
structure BanEventData where
  guildId : String
  userId : String
  reason : Option String
deriving DecidableEq, Repr

/-- An `UNBAN` infraction row as created by `GuildBanRemoveEvent.execute` via
`prisma.infraction.create`. -/
structure UnbanRow where
  guildId : String
  moderatorId : String
  infractionType : String
  userId : String
  reason : Option String
deriving DecidableEq, Repr

/-- JavaScript truthiness of an optional string: `undefined`/absent and the
empty string are falsy. -/
def truthyStr : Option String → Bool
  | some s => s != ""
  | none => false

/-- JavaScript `a !== b` where `a` is a string and `b` is
`string | undefined`: comparing against `undefined` is always `true`. -/
def strNeqOpt (a : String) (b : Option String) : Bool :=
  match b with
  | some s => a != s
  | none => true

/-- The body `GuildBanRemoveEvent.execute` runs after the 3.5-second delay
(src/src/commands/moderation/BanCommand.ts, lines 193-224): fetch the most
recent `MemberBanRemove` audit-log entry; if its executor's id is truthy and
differs (`!==`) from the bot's own user id, create an `UNBAN` infraction for
the unbanned user with the executor as moderator.  The whole body sits in a
`try`/`catch` whose handler calls `logError`; `fetchResult` is the outcome of
the audit-log fetch (`Except.error` when it throws).  The result is the
created row (if any) paired with the logged error (if any); no error
escapes. -/
def guildBanRemoveDelayedCheck (fetchResult : Except String (Option AuditEntryData))
    (botUserId : Option String) (ban : BanEventData) :
    Option UnbanRow × Option String :=
  match fetchResult with
  | .error e => (none, some e)
  | .ok auditLog =>
    match auditLog with
    | none => (none, none)
    | some entry =>
      match entry.executorId with
      | none => (none, none)
      | some eid =>
        if (eid != "") && strNeqOpt eid botUserId then
          ({ guildId := ban.guildId, moderatorId := eid,
             infractionType := "UNBAN", userId := ban.userId,
             reason := ban.reason } : UnbanRow) |> (fun r => (some r, none))
        else
          (none, none)

/-- The per-guild logging configuration read by `LoggerService.send`
(src/src/services/LoggerService.ts, lines 45-46): the optional `logging`
block with its optional `enabled` flag and optional `primary_channel` id.
`none` at either level models the `?.` chains yielding `undefined`. -/
structure LoggingConfig where
  enabled : Option Bool
  primary_channel : Option String
deriving DecidableEq, Repr

/-- A fetched guild channel as `LoggerService.send` distinguishes them:
whether `isTextableChannel(channel)` holds. -/
structure FetchedChannel where
  textable : Bool
deriving DecidableEq, Repr

/-- JavaScript truthiness of an optional boolean: `undefined` is falsy. -/
def truthyBool : Option Bool → Bool
  | some b => b
  | none => false

/-- Result of `LoggerService.send`: the sent message id when one was sent
(`none` models the `null` returns), the error passed to `logError` when one
was caught, and whether `channel.send` was actually invoked. -/
structure SendOutcome where
  message : Option Nat
  loggedError : Option String
  sendAttempted : Bool
deriving DecidableEq, Repr

/-- `LoggerService.send` (src/src/services/LoggerService.ts, lines 44-60):
read `config[guild.id]?.logging?.primary_channel` and `...?.logging?.enabled`;
if either is falsy, return `null` without doing anything.  Otherwise fetch
the channel inside a `try`: a throw is caught, logged, and `null` is
returned; a missing or non-textable channel returns `null`; otherwise the
message is sent, and a throw from the send is likewise caught and logged.
`cfg` is the guild's configuration block (`none` when the guild has no
config), `fetchChannel` the outcome of `guild.channels.fetch(channelId)`,
and `sendResult` the outcome of `channel.send(options)`. -/
def loggerSend (cfg : Option LoggingConfig)
    (fetchChannel : Except String (Option FetchedChannel))
    (sendResult : Except String Nat) : SendOutcome :=
  let channelId := cfg.bind (fun c => c.primary_channel)
  let enabled := cfg.bind (fun c => c.enabled)
  if !(truthyBool enabled) || !(truthyStr channelId) then
    { message := none, loggedError := none, sendAttempted := false }
  else
    match fetchChannel with
    | .error e => { message := none, loggedError := some e, sendAttempted := false }
    | .ok none => { message := none, loggedError := none, sendAttempted := false }
    | .ok (some ch) =>
      if !ch.textable then
        { message := none, loggedError := none, sendAttempted := false }
      else
        match sendResult with
        | .error e => { message := none, loggedError := some e, sendAttempted := true }
        | .ok m => { message := some m, loggedError := none, sendAttempted := true }

/-- `LoggerService.sendLogEmbed` and the public `log*` methods
(src/src/services/LoggerService.ts): each builds an embed and delegates to
`send`; the delivery behaviour is exactly `loggerSend`'s. -/
def logUserUnban (cfg : Option LoggingConfig)
    (fetchChannel : Except String (Option FetchedChannel))
    (sendResult : Except String Nat) : SendOutcome :=
  loggerSend cfg fetchChannel sendResult

/-- Helper: an entry matches its own key. -/
theorem keyMatches_self (e : ScheduledEntry) :
    keyMatches e.guildId e.subjectId e.taskName e = true := by
  simp [keyMatches]

/-- C3: if the actuator call fails during `create`, a failure outcome is
returned, no infraction is persisted, no entry is scheduled, and the state is
exactly as before; the ban command then reports the failure to the caller. -/
theorem create_actuator_failure_no_partial_state (req : ActionRequest)
    (now freshId : Nat) (st : MachineState) :
    create req .failure now freshId st = (.failure, st) ∧
    (create req .failure now freshId st).2.infractions = st.infractions ∧
    (create req .failure now freshId st).2.scheduler.store = st.scheduler.store ∧
    banCommandExecute req .failure now freshId st = (.failedMessage, st) :=
  ⟨rfl, rfl, rfl, rfl⟩

/-- C6: `manualResolve` on an already-resolved infraction is a no-op success:
it returns success, does not invoke the reversal actuator (the `false`
component), and leaves the state unchanged. -/
theorem manualResolve_idempotent_on_resolved (inf : Infraction) (task : String)
    (st : MachineState) (h : inf.resolved = true) :
    manualResolve inf task st = (.success, false, st) := by
  simp [manualResolve, h]

/-- Witness for C6 at a concrete already-resolved infraction. -/
theorem manualResolve_idempotent_on_resolved_witness :
    manualResolve
      { id := 1, guildId := "1", subjectId := "42", moderatorId := "7",
        reason := none, duration := some 1000, createdAt := 0, resolved := true }
      "unban" { infractions := [], scheduler := { store := [], timers := [] } }
      = (.success, false,
         { infractions := [], scheduler := { store := [], timers := [] } }) :=
  manualResolve_idempotent_on_resolved _ "unban" _ rfl

/-- C4: at a concrete invocation (guild "1", invoker "1001", target member
"42", role "99", duration 5000ms, offset 0) the role is added to the target
member "42", yet every queue entry the command installs carries the invoker's
id "1001" as its `userId` and as the subject element of `args` — not the id
of the member who received the role.  The scheduled removal therefore targets
the wrong user. -/
theorem tempRole_entries_carry_invoker_not_target :
    (tempRoleExecute 1000
      { guildId := "1", invokerId := "1001", memberId := "42",
        roleId := "99", duration := 5000, offset := 0 }).immediateRoleAdd
      = some ("42", "99") ∧
    (tempRoleExecute 1000
      { guildId := "1", invokerId := "1001", memberId := "42",
        roleId := "99", duration := 5000, offset := 0 }).queued.all
      (fun e => e.userId == "1001" && e.args == ["1001", "99"]) = true ∧
    "1001" ≠ "42" := by
  refine ⟨rfl, rfl, by decide⟩

/-- C5: every queue entry created by the temp-role command satisfies
`createdAt ≤ willRunAt`; the grant entry runs at creation time plus the
validated offset, the removal entry at creation time plus the non-negative
sum `offset + duration`. -/
theorem tempRole_runAt_ge_createdAt (now : Nat) (inp : TempRoleIn) :
    ∀ e ∈ (tempRoleExecute now inp).queued,
      e.createdAt ≤ e.willRunAt ∧
      (e.name = "TempRoleAddQueue" → e.willRunAt = e.createdAt + inp.offset) ∧
      (e.name = "TempRoleRemoveQueue" →
        e.willRunAt = e.createdAt + (inp.offset + inp.duration)) := by
  intro e he
  unfold tempRoleExecute at he
  split at he
  case isTrue h =>
    simp only [List.mem_singleton] at he
    subst he
    refine ⟨Nat.le_add_right _ _, fun hn => ?_, fun _ => by simp [h]⟩
    simp at hn
  case isFalse h =>
    rcases List.mem_pair.mp he with he1 | he1 <;> subst he1
    · exact ⟨Nat.le_add_right _ _, fun _ => rfl, fun hn => by simp at hn⟩
    · exact ⟨Nat.le_add_right _ _, fun hn => by simp at hn, fun _ => rfl⟩

/-- Witness for C5: the removal entry of a concrete call. -/
theorem tempRole_runAt_ge_createdAt_witness :
    ({ args := ["1001", "99"], createdAt := 1000,
       filePath := "../../queues/TempRoleRemoveQueue", guildId := "1",
       name := "TempRoleRemoveQueue", userId := "1001",
       willRunAt := 1000 + (0 + 5000) } : QueueEntryData).createdAt ≤
      ({ args := ["1001", "99"], createdAt := 1000,
         filePath := "../../queues/TempRoleRemoveQueue", guildId := "1",
         name := "TempRoleRemoveQueue", userId := "1001",
         willRunAt := 1000 + (0 + 5000) } : QueueEntryData).willRunAt :=
  (tempRole_runAt_ge_createdAt 1000
    { guildId := "1", invokerId := "1001", memberId := "42", roleId := "99",
      duration := 5000, offset := 0 } _ (by decide)).1

/-- C8: when the validated `offset` is 0 the command adds the role to the
target member immediately and queues exactly one entry — the removal, due at
`now + duration`; when `offset > 0` no immediate role change happens and
exactly two entries are queued — a `TempRoleAddQueue` grant due at
`now + offset` and a `TempRoleRemoveQueue` removal due at
`now + offset + duration`. -/
theorem tempRole_offset_branches (now : Nat) (inp : TempRoleIn) :
    (inp.offset = 0 →
      (tempRoleExecute now inp).immediateRoleAdd
        = some (inp.memberId, inp.roleId) ∧
      (tempRoleExecute now inp).queued.map (fun e => (e.name, e.willRunAt))
        = [("TempRoleRemoveQueue", now + inp.duration)]) ∧
    (inp.offset ≠ 0 →
      (tempRoleExecute now inp).immediateRoleAdd = none ∧
      (tempRoleExecute now inp).queued.map (fun e => (e.name, e.willRunAt))
        = [("TempRoleAddQueue", now + inp.offset),
           ("TempRoleRemoveQueue", now + (inp.offset + inp.duration))]) := by
  constructor
  · intro h
    simp [tempRoleExecute, h]
  · intro h
    simp [tempRoleExecute, h]

/-- Witness for C8: a zero-offset call and a positive-offset call. -/
theorem tempRole_offset_branches_witness :
    ((tempRoleExecute 1000
        { guildId := "1", invokerId := "1001", memberId := "42",
          roleId := "99", duration := 5000, offset := 0 }).immediateRoleAdd
      = some ("42", "99") ∧
     (tempRoleExecute 1000
        { guildId := "1", invokerId := "1001", memberId := "42",
          roleId := "99", duration := 5000, offset := 0 }).queued.map
        (fun e => (e.name, e.willRunAt))
      = [("TempRoleRemoveQueue", 1000 + 5000)]) ∧
    ((tempRoleExecute 1000
        { guildId := "1", invokerId := "1001", memberId := "42",
          roleId := "99", duration := 5000, offset := 7 }).immediateRoleAdd
      = none ∧
     (tempRoleExecute 1000
        { guildId := "1", invokerId := "1001", memberId := "42",
          roleId := "99", duration := 5000, offset := 7 }).queued.map
        (fun e => (e.name, e.willRunAt))
      = [("TempRoleAddQueue", 1000 + 7),
         ("TempRoleRemoveQueue", 1000 + (7 + 5000))]) :=
  ⟨(tempRole_offset_branches 1000 _).1 rfl,
   (tempRole_offset_branches 1000 _).2 (by decide)⟩


/-- C9: after the fixed 3.5-second delay, an `UNBAN` infraction row is
created if and only if the fetched most-recent `MemberBanRemove` audit-log
entry has a truthy executor id that differs from the bot's own user id; a
throw inside the delayed body is caught and logged (the error appears in the
result instead of propagating); any created row is an `UNBAN` for the
unbanned user, with the executor as moderator. -/
theorem guildBanRemove_unban_iff (fetchResult : Except String (Option AuditEntryData))
    (botUserId : Option String) (ban : BanEventData) :
    ((guildBanRemoveDelayedCheck fetchResult botUserId ban).1.isSome = true ↔
      ∃ entry eid, fetchResult = Except.ok (some entry) ∧
        entry.executorId = some eid ∧ eid ≠ "" ∧ some eid ≠ botUserId) ∧
    (∀ e, fetchResult = Except.error e →
      guildBanRemoveDelayedCheck fetchResult botUserId ban = (none, some e)) ∧
    (∀ r, (guildBanRemoveDelayedCheck fetchResult botUserId ban).1 = some r →
      r.infractionType = "UNBAN" ∧ r.userId = ban.userId ∧
      fetchResult = Except.ok (some { executorId := some r.moderatorId })) ∧
    guildBanRemoveDelayMs = 3500 := by
  refine ⟨?_, ?_, ?_, rfl⟩
  · constructor
    · intro h
      rcases fetchResult with e | auditLog
      · simp [guildBanRemoveDelayedCheck] at h
      rcases auditLog with _ | entry
      · simp [guildBanRemoveDelayedCheck] at h
      obtain ⟨execOpt⟩ := entry
      rcases execOpt with _ | eid
      · simp [guildBanRemoveDelayedCheck] at h
      by_cases hc : (eid != "" && strNeqOpt eid botUserId) = true
      · have h1 : eid ≠ "" := bne_iff_ne.mp ((Bool.and_eq_true _ _).mp hc).1
        have h2 : strNeqOpt eid botUserId = true :=
          ((Bool.and_eq_true _ _).mp hc).2
        refine ⟨⟨some eid⟩, eid, rfl, rfl, h1, ?_⟩
        rcases botUserId with _ | b
        · simp
        · intro hs
          exact (bne_iff_ne.mp h2) (Option.some_inj.mp hs)
      · simp [guildBanRemoveDelayedCheck, hc] at h
    · rintro ⟨entry, eid, hf, hx, hne, hbot⟩
      subst hf
      obtain ⟨execOpt⟩ := entry
      simp only at hx
      subst hx
      have hc : (eid != "" && strNeqOpt eid botUserId) = true := by
        refine (Bool.and_eq_true _ _).mpr ⟨bne_iff_ne.mpr hne, ?_⟩
        unfold strNeqOpt
        rcases botUserId with _ | b
        · rfl
        · exact bne_iff_ne.mpr (fun hb => hbot (by rw [hb]))
      simp [guildBanRemoveDelayedCheck, hc]
  · intro e he
    subst he
    rfl
  · intro r hr
    rcases fetchResult with e | auditLog
    · simp [guildBanRemoveDelayedCheck] at hr
    rcases auditLog with _ | entry
    · simp [guildBanRemoveDelayedCheck] at hr
    obtain ⟨execOpt⟩ := entry
    rcases execOpt with _ | eid
    · simp [guildBanRemoveDelayedCheck] at hr
    by_cases hc : (eid != "" && strNeqOpt eid botUserId) = true
    · simp [guildBanRemoveDelayedCheck, hc] at hr
      subst hr
      exact ⟨rfl, rfl, rfl⟩
    · simp [guildBanRemoveDelayedCheck, hc] at hr

/-- Witness for C9: a human moderator "777" unbans user "42" while the bot is
"999"; a row is created.  A throwing fetch is caught instead. -/
theorem guildBanRemove_unban_iff_witness :
    (guildBanRemoveDelayedCheck
      (Except.ok (some { executorId := some "777" })) (some "999")
      { guildId := "1", userId := "42", reason := none }).1.isSome = true ∧
    guildBanRemoveDelayedCheck (Except.error "boom") (some "999")
      { guildId := "1", userId := "42", reason := none }
      = (none, some "boom") :=
  ⟨(guildBanRemove_unban_iff (Except.ok (some { executorId := some "777" }))
      (some "999") { guildId := "1", userId := "42", reason := none }).1.mpr
      ⟨{ executorId := some "777" }, "777", rfl, rfl, by decide, by decide⟩,
   (guildBanRemove_unban_iff (Except.error "boom") (some "999")
      { guildId := "1", userId := "42", reason := none }).2.1 "boom" rfl⟩

/-- C10: `LoggerService.send` sends nothing and returns `null` whenever
logging is disabled for the guild or no primary log channel is configured;
a throw from the channel fetch or the message send is caught (it is logged
and `null` returned, never propagated); the public `log*` methods delegate to
`send` and so share this fire-and-forget behaviour. -/
theorem loggerSend_fire_and_forget (cfg : Option LoggingConfig)
    (fetchChannel : Except String (Option FetchedChannel))
    (sendResult : Except String Nat) :
    ((truthyBool (cfg.bind (fun c => c.enabled)) = false ∨
      truthyStr (cfg.bind (fun c => c.primary_channel)) = false) →
      loggerSend cfg fetchChannel sendResult
        = { message := none, loggedError := none, sendAttempted := false }) ∧
    (∀ e, fetchChannel = Except.error e →
      (loggerSend cfg fetchChannel sendResult).message = none ∧
      (loggerSend cfg fetchChannel sendResult).sendAttempted = false) ∧
    (∀ e, sendResult = Except.error e →
      (loggerSend cfg fetchChannel sendResult).message = none) ∧
    logUserUnban cfg fetchChannel sendResult
      = loggerSend cfg fetchChannel sendResult := by
  refine ⟨?_, ?_, ?_, rfl⟩
  · intro h
    rcases h with h | h
    · simp [loggerSend, h]
    · simp [loggerSend, h]
  · intro e he
    subst he
    by_cases h1 : truthyBool (cfg.bind (fun c => c.enabled)) = true
    · by_cases h2 : truthyStr (cfg.bind (fun c => c.primary_channel)) = true
      · simp [loggerSend, h1, h2]
      · rw [Bool.not_eq_true] at h2
        simp [loggerSend, h2]
    · rw [Bool.not_eq_true] at h1
      simp [loggerSend, h1]
  · intro e he
    subst he
    by_cases h1 : truthyBool (cfg.bind (fun c => c.enabled)) = true
    · by_cases h2 : truthyStr (cfg.bind (fun c => c.primary_channel)) = true
      · rcases fetchChannel with e2 | och
        · simp [loggerSend, h1, h2]
        rcases och with _ | ch
        · simp [loggerSend, h1, h2]
        by_cases h3 : ch.textable = true
        · simp [loggerSend, h1, h2, h3]
        · rw [Bool.not_eq_true] at h3
          simp [loggerSend, h1, h2, h3]
      · rw [Bool.not_eq_true] at h2
        simp [loggerSend, h2]
    · rw [Bool.not_eq_true] at h1
      simp [loggerSend, h1]

/-- Witness for C10: an unconfigured guild yields a silent `null`; an enabled
guild whose channel fetch throws yields `null` with nothing sent. -/
theorem loggerSend_fire_and_forget_witness :
    loggerSend none (Except.ok none) (Except.ok 5)
      = { message := none, loggedError := none, sendAttempted := false } ∧
    (loggerSend (some { enabled := some true, primary_channel := some "log" })
      (Except.error "fetch failed") (Except.ok 5)).message = none ∧
    (loggerSend (some { enabled := some true, primary_channel := some "log" })
      (Except.error "fetch failed") (Except.ok 5)).sendAttempted = false :=
  ⟨(loggerSend_fire_and_forget none (Except.ok none) (Except.ok 5)).1
      (Or.inl rfl),
   (loggerSend_fire_and_forget
      (some { enabled := some true, primary_channel := some "log" })
      (Except.error "fetch failed") (Except.ok 5)).2.1 "fetch failed" rfl⟩

/-- Helper: `keyMatches` against an entry's own key components is exactly key
equality. -/
theorem keyMatches_iff_entryKey (x e : ScheduledEntry) :
    keyMatches e.guildId e.subjectId e.taskName x = true ↔
      entryKey x = entryKey e := by
  simp [keyMatches, entryKey, Prod.ext_iff, and_assoc]

/-- C7: `cancel` returns whether an entry with the key was found, removes
every entry with that key, and a second `cancel` on the same key reports "not
found" and leaves the state unchanged. -/
theorem cancel_idempotent (gid sid task : String) (st : SchedulerState) :
    (cancel gid sid task st).1 = st.store.any (keyMatches gid sid task) ∧
    (∀ e ∈ (cancel gid sid task st).2.store,
      keyMatches gid sid task e = false) ∧
    cancel gid sid task (cancel gid sid task st).2
      = (false, (cancel gid sid task st).2) := by
  refine ⟨rfl, ?_, ?_⟩
  · intro e he
    simp only [cancel, List.mem_filter] at he
    simpa using he.2
  · have hstore :
        ((cancel gid sid task st).2.store.filter
          (fun e => !(keyMatches gid sid task e)))
        = (cancel gid sid task st).2.store :=
      List.filter_eq_self.mpr (fun a ha => (List.mem_filter.mp ha).2)
  
    have htimers :
        ((cancel gid sid task st).2.timers.filter
          (fun t => !(keyMatches gid sid task t.1)))
        = (cancel gid sid task st).2.timers :=
      List.filter_eq_self.mpr (fun a ha => (List.mem_filter.mp ha).2)
    have hany :
        (cancel gid sid task st).2.store.any (keyMatches gid sid task)
          = false := by
      rw [Bool.eq_false_iff]
      intro hb
      rcases List.any_eq_true.mp hb with ⟨x, hx, hpx⟩
      have := (List.mem_filter.mp hx).2
      rw [hpx] at this
      simp at this
    show ((cancel gid sid task st).2.store.any (keyMatches gid sid task),
          ({ store := _, timers := _ } : SchedulerState))
        = (false, (cancel gid sid task st).2)
    rw [hany]
    refine congrArg _ ?_
    show ({ store := (cancel gid sid task st).2.store.filter
              (fun e => !(keyMatches gid sid task e)),
            timers := (cancel gid sid task st).2.timers.filter
              (fun t => !(keyMatches gid sid task t.1)) } : SchedulerState)
        = (cancel gid sid task st).2
    rw [hstore, htimers]

/-- Witness for C7 with one pending entry: the first cancel finds and removes
it, the second reports "not found" and changes nothing. -/
theorem cancel_idempotent_witness :
    (cancel "1" "42" "unban"
      { store := [{ id := 1, taskName := "unban", guildId := "1",
                    subjectId := "42", args := [], createdAt := 0,
                    runAt := 100 }],
        timers := [({ id := 1, taskName := "unban", guildId := "1",
                      subjectId := "42", args := [], createdAt := 0,
                      runAt := 100 }, 100)] }).1 = true ∧
    cancel "1" "42" "unban"
      (cancel "1" "42" "unban"
        { store := [{ id := 1, taskName := "unban", guildId := "1",
                      subjectId := "42", args := [], createdAt := 0,
                      runAt := 100 }],
          timers := [({ id := 1, taskName := "unban", guildId := "1",
                        subjectId := "42", args := [], createdAt := 0,
                        runAt := 100 }, 100)] }).2
      = (false,
         (cancel "1" "42" "unban"
          { store := [{ id := 1, taskName := "unban", guildId := "1",
                        subjectId := "42", args := [], createdAt := 0,
                        runAt := 100 }],
            timers := [({ id := 1, taskName := "unban", guildId := "1",
                          subjectId := "42", args := [], createdAt := 0,
                          runAt := 100 }, 100)] }).2) :=
  ⟨by decide,
   (cancel_idempotent "1" "42" "unban"
      { store := [{ id := 1, taskName := "unban", guildId := "1",
                    subjectId := "42", args := [], createdAt := 0,
                    runAt := 100 }],
        timers := [({ id := 1, taskName := "unban", guildId := "1",
                      subjectId := "42", args := [], createdAt := 0,
                      runAt := 100 }, 100)] }).2.2⟩

/-- C1: two `schedule` calls sharing the same `(guildId, subjectId, taskName)`
key leave only the later entry pending: looking the key up finds the later
entry, every stored entry with that key is the later entry (no two pending
entries for the key coexist), the earlier entry's record is gone from the
store, and no armed timer carries an entry with that key other than the
later entry (the earlier timer was disarmed before the new entry was
installed). -/
theorem schedule_supersedes (now1 now2 : Nat) (st : SchedulerState)
    (e1 e2 : ScheduledEntry) (hkey : entryKey e1 = entryKey e2) :
    findByKey e2.guildId e2.subjectId e2.taskName
        (schedule now2 e2 (schedule now1 e1 st)) = some e2 ∧
    (∀ x ∈ (schedule now2 e2 (schedule now1 e1 st)).store,
        entryKey x = entryKey e2 → x = e2) ∧
    (e1 ≠ e2 → e1 ∉ (schedule now2 e2 (schedule now1 e1 st)).store) ∧
    (∀ t ∈ (schedule now2 e2 (schedule now1 e1 st)).timers,
        entryKey t.1 = entryKey e2 → t.1 = e2) := by
  refine ⟨?_, ?_, ?_, ?_⟩
  · show (((schedule now1 e1 st).store.filter
      (fun e => !(keyMatches e2.guildId e2.subjectId e2.taskName e)))
        ++ [e2]).find? (keyMatches e2.guildId e2.subjectId e2.taskName)
      = some e2
    rw [List.find?_append]
    have hnone : ((schedule now1 e1 st).store.filter
        (fun e => !(keyMatches e2.guildId e2.subjectId e2.taskName e))).find?
          (keyMatches e2.guildId e2.subjectId e2.taskName) = none := by
      rw [List.find?_eq_none]
      intro x hx
      have := (List.mem_filter.mp hx).2
      simp at this
      simp [this]
    rw [hnone]
    simp [keyMatches_self]
  · intro x hx hxkey
    show x = e2
    rcases List.mem_append.mp hx with hx1 | hx1
    · exfalso
      have := (List.mem_filter.mp hx1).2
      have hk := (keyMatches_iff_entryKey x e2).mpr hxkey
      rw [hk] at this
      simp at this
    · simpa using hx1
  · intro hne hmem
    rcases List.mem_append.mp hmem with hx1 | hx1
    · have := (List.mem_filter.mp hx1).2
      have hk := (keyMatches_iff_entryKey e1 e2).mpr hkey
      rw [hk] at this
      simp at this
    · exact hne (by simpa using hx1)
  · intro t ht htkey
    rcases List.mem_append.mp ht with ht1 | ht1
    · have := (List.mem_filter.mp ht1).2
      have hk := (keyMatches_iff_entryKey t.1 e2).mpr htkey
      rw [hk] at this
      simp at this
    · have : t = (e2, e2.runAt - now2) := by simpa using ht1
      rw [this]

/-- Witness for C1: two temp-role removal entries for guild "1", subject
"42"; after both calls only the second remains and the first is gone. -/
theorem schedule_supersedes_witness :
    findByKey "1" "42" "TempRoleRemoveQueue"
      (schedule 0
        { id := 2, taskName := "TempRoleRemoveQueue", guildId := "1",
          subjectId := "42", args := ["42", "99"], createdAt := 0,
          runAt := 200 }
        (schedule 0
          { id := 1, taskName := "TempRoleRemoveQueue", guildId := "1",
            subjectId := "42", args := ["42", "99"], createdAt := 0,
            runAt := 100 }
          { store := [], timers := [] }))
      = some { id := 2, taskName := "TempRoleRemoveQueue", guildId := "1",
               subjectId := "42", args := ["42", "99"], createdAt := 0,
               runAt := 200 } ∧
    { id := 1, taskName := "TempRoleRemoveQueue", guildId := "1",
      subjectId := "42", args := ["42", "99"], createdAt := 0,
      runAt := 100 } ∉
      (schedule 0
        { id := 2, taskName := "TempRoleRemoveQueue", guildId := "1",
          subjectId := "42", args := ["42", "99"], createdAt := 0,
          runAt := 200 }
        (schedule 0
          { id := 1, taskName := "TempRoleRemoveQueue", guildId := "1",
            subjectId := "42", args := ["42", "99"], createdAt := 0,
            runAt := 100 }
          { store := [], timers := [] })).store :=
  ⟨(schedule_supersedes 0 0 { store := [], timers := [] }
      { id := 1, taskName := "TempRoleRemoveQueue", guildId := "1",
        subjectId := "42", args := ["42", "99"], createdAt := 0,
        runAt := 100 }
      { id := 2, taskName := "TempRoleRemoveQueue", guildId := "1",
        subjectId := "42", args := ["42", "99"], createdAt := 0,
        runAt := 200 } rfl).1,
   (schedule_supersedes 0 0 { store := [], timers := [] }
      { id := 1, taskName := "TempRoleRemoveQueue", guildId := "1",
        subjectId := "42", args := ["42", "99"], createdAt := 0,
        runAt := 100 }
      { id := 2, taskName := "TempRoleRemoveQueue", guildId := "1",
        subjectId := "42", args := ["42", "99"], createdAt := 0,
        runAt := 200 } rfl).2.2.1 (by decide)⟩

/-- Helper: the first-pass fired list of the startup reconciliation is
exactly the past-due entries of `listAll()`, in arrival order. -/
theorem startupReconcile_late_eq (now : Nat) (entries : List ScheduledEntry) :
    (startupReconcile now entries).2
      = entries.filter (fun e => decide (e.runAt ≤ now)) := by
  induction entries with
  | nil => rfl
  | cons a l ih =>
    simp only [startupReconcile] at ih ⊢
    simp only [List.map_cons, List.filter_cons]
    rcases le_or_lt a.runAt now with h | h
    · have h0 : delayOf now a = 0 := Nat.sub_eq_zero_of_le h
      simp [h0, h, ih]
    · have h0 : delayOf now a ≠ 0 := Nat.sub_ne_zero_of_lt h
      simp [h0, Nat.not_le.mpr h, ih]

/-- C2: at startup the scheduler computes `delay = max(0, runAt - now)` for
every loaded entry; every entry whose deadline already passed (delay 0) is in
the first-pass fired list — which is exactly the past-due entries in arrival
order of `listAll()` — and not in the remaining store, while every
not-yet-due entry is armed with its entry-specific delay. -/
theorem startup_fires_past_due (now : Nat) (entries : List ScheduledEntry) :
    (startupReconcile now entries).2
      = entries.filter (fun e => decide (e.runAt ≤ now)) ∧
    (∀ e ∈ entries, e.runAt ≤ now →
      e ∈ (startupReconcile now entries).2 ∧
      e ∉ (startupReconcile now entries).1.store) ∧
    (∀ e ∈ entries, now < e.runAt →
      (e, delayOf now e) ∈ (startupReconcile now entries).1.timers) := by
  refine ⟨startupReconcile_late_eq now entries, ?_, ?_⟩
  · intro e he hle
    constructor
    · rw [startupReconcile_late_eq now entries]
      exact List.mem_filter.mpr ⟨he, by simpa using hle⟩
    · intro hmem
      simp only [startupReconcile, List.mem_map, List.mem_filter] at hmem
      rcases hmem with ⟨t, ⟨⟨x, hxmem, hxeq⟩, hnz⟩, hfst⟩
      subst hxeq
      simp only at hfst hnz
      rw [hfst] at hnz
      have h0 : delayOf now e = 0 := Nat.sub_eq_zero_of_le hle
      rw [h0] at hnz
      simp at hnz
  · intro e he hlt
    simp only [startupReconcile, List.mem_filter]
    refine ⟨List.mem_map.mpr ⟨e, he, rfl⟩, ?_⟩
    have : delayOf now e ≠ 0 := Nat.sub_ne_zero_of_lt hlt
    simpa using this

/-- Witness for C2: one entry an hour overdue (runAt 1000, now 4600000) fires
on the first pass and is absent from the store; one future entry stays armed
with its remaining delay. -/
theorem startup_fires_past_due_witness :
    ({ id := 1, taskName := "unban", guildId := "1", subjectId := "42",
       args := [], createdAt := 0, runAt := 1000 } : ScheduledEntry) ∈
      (startupReconcile 4600000
        [{ id := 1, taskName := "unban", guildId := "1", subjectId := "42",
           args := [], createdAt := 0, runAt := 1000 },
         { id := 2, taskName := "unban", guildId := "1", subjectId := "43",
           args := [], createdAt := 0, runAt := 9000000 }]).2 ∧
    ({ id := 1, taskName := "unban", guildId := "1", subjectId := "42",
       args := [], createdAt := 0, runAt := 1000 } : ScheduledEntry) ∉
      (startupReconcile 4600000
        [{ id := 1, taskName := "unban", guildId := "1", subjectId := "42",
           args := [], createdAt := 0, runAt := 1000 },
         { id := 2, taskName := "unban", guildId := "1", subjectId := "43",
           args := [], createdAt := 0, runAt := 9000000 }]).1.store ∧
    (({ id := 2, taskName := "unban", guildId := "1", subjectId := "43",
        args := [], createdAt := 0, runAt := 9000000 } : ScheduledEntry),
      4400000) ∈
      (startupReconcile 4600000
        [{ id := 1, taskName := "unban", guildId := "1", subjectId := "42",
           args := [], createdAt := 0, runAt := 1000 },
         { id := 2, taskName := "unban", guildId := "1", subjectId := "43",
           args := [], createdAt := 0, runAt := 9000000 }]).1.timers :=
  ⟨((startup_fires_past_due 4600000
      [{ id := 1, taskName := "unban", guildId := "1", subjectId := "42",
         args := [], createdAt := 0, runAt := 1000 },
       { id := 2, taskName := "unban", guildId := "1", subjectId := "43",
         args := [], createdAt := 0, runAt := 9000000 }]).2.1 _
      (by decide) (by decide)).1,
   ((startup_fires_past_due 4600000
      [{ id := 1, taskName := "unban", guildId := "1", subjectId := "42",
         args := [], createdAt := 0, runAt := 1000 },
       { id := 2, taskName := "unban", guildId := "1", subjectId := "43",
         args := [], createdAt := 0, runAt := 9000000 }]).2.1 _
      (by decide) (by decide)).2,
   (startup_fires_past_due 4600000
      [{ id := 1, taskName := "unban", guildId := "1", subjectId := "42",
         args := [], createdAt := 0, runAt := 1000 },
       { id := 2, taskName := "unban", guildId := "1", subjectId := "43",
         args := [], createdAt := 0, runAt := 9000000 }]).2.2 _
      (by decide) (by decide)⟩
